import Mathlib

/-!
Shallow embedding of the domain-level strategy validator
(`domain_validate_strategy` in `src/tools/strat.py`) of the hacktx25
repository, together with theorems settling the frozen claims about it.

The validator receives a parsed strategy document (in the source, the
result of `yaml.safe_load` after the initial field-extraction `try`
block has succeeded) and accumulates error and warning messages over
seven checks, finally rendering a plain-text report.  The embedding
mirrors the source field accesses: every field that the source reads
with `dict.get(key, default)` is an `Option` here, resolved with the
same default; integer coercions `int(x or 0)` become `Option.getD 0`.
-/

namespace Hacktx

/-- One stint entry of the `stints` list, with exactly the fields the
domain validator reads.  Every field is optional because the source
accesses each one via `s.get(...)` with a default. -/
structure Stint where
  stint_id : Option Int
  start_lap : Option Int
  planned_inlap : Option Int
  compound : Option String
  set_condition : Option String
  target_len_laps : Option Int
deriving DecidableEq, Repr

/-- The `assumptions.constraints` mapping, restricted to the keys the
domain validator reads (each via `.get` with a default). -/
structure Constraints where
  allow_used_tyre : Option Bool
  min_compounds_required : Option Int
  max_pitstops : Option Int
deriving DecidableEq, Repr

/-- A parsed strategy document after the validator's field-extraction
block has succeeded: `metadata.track.laps`, the constraints, the tire
inventory (`assumptions.tire_availability`, an insertion-ordered
mapping), the stint list and `user_view.planned_pit_laps`. -/
structure StrategyDoc where
  total_laps : Int
  constraints : Constraints
  tire_availability : List (String × Int)
  stints : List Stint
  planned_pit_laps : List Int
deriving DecidableEq, Repr

/-- Python `str.strip()`: drop leading and trailing whitespace. -/
def pyStrip (s : String) : String :=
  ⟨((s.data.dropWhile Char.isWhitespace).reverse.dropWhile
      Char.isWhitespace).reverse⟩

/-- Python `str.split(sep)` for a single-character separator: split at
every occurrence, keeping empty segments. -/
def splitChar (c : Char) : List Char → List (List Char)
  | [] => [[]]
  | x :: xs =>
      let r := splitChar c xs
      if x = c then [] :: r
      else
        match r with
        | h :: t => (x :: h) :: t
        | [] => [[x]]

/-- Python `key.split("_")`. -/
def pySplitU (s : String) : List String :=
  (splitChar '_' s.data).map fun l => ⟨l⟩

/-- `s.get("set_condition", "new")`. -/
def condOf (s : Stint) : String := s.set_condition.getD "new"

/-- `s.get("compound", "")`. -/
def compoundRaw (s : Stint) : String := s.compound.getD ""

/-- `int(s.get("planned_inlap", 0) or 0)`. -/
def inlapOf (s : Stint) : Int := s.planned_inlap.getD 0

/-- `int(s.get("start_lap", 0) or 0)`. -/
def startOf (s : Stint) : Int := s.start_lap.getD 0

/-- `int(s.get("target_len_laps", 0) or 0)`. -/
def tlenOf (s : Stint) : Int := s.target_len_laps.getD 0

/-- Rendering of `s.get("stint_id")` inside an f-string: a missing key
gives Python `None`, printed as `None`; an integer prints in decimal. -/
def renderId : Option Int → String
  | none => "None"
  | some n => toString n

/-- Python `str` of a list of integers, e.g. `[17, 38]` or `[]`. -/
def renderIntList (l : List Int) : String :=
  "[" ++ String.intercalate ", " (l.map toString) ++ "]"

/-- `bool(constraints.get("allow_used_tyre", False))`. -/
def allowUsedOf (doc : StrategyDoc) : Bool :=
  doc.constraints.allow_used_tyre.getD false

/-- `int(constraints.get("min_compounds_required", 0))`. -/
def minCompoundsOf (doc : StrategyDoc) : Int :=
  doc.constraints.min_compounds_required.getD 0

/-- `int(constraints.get("max_pitstops", 99))`. -/
def maxPitstopsOf (doc : StrategyDoc) : Int :=
  doc.constraints.max_pitstops.getD 99

/-- `compounds = [s.get("compound", "").strip() for s in stints]`. -/
def compoundsOf (doc : StrategyDoc) : List String :=
  doc.stints.map (fun s => pyStrip (compoundRaw s))

/-- `only_wet = all(c in {"Wet", "Intermediate"} for c in compounds) and len(compounds) > 0`. -/
def onlyWet (doc : StrategyDoc) : Bool :=
  ((compoundsOf doc).all fun c => c == "Wet" || c == "Intermediate")
    && !(compoundsOf doc).isEmpty

/-- Check 1 error message (a literal in the source). -/
def minStintsMsg : String :=
  "Must schedule ≥ 2 stints for dry/normal conditions; found < 2."

/-- Check 1: fewer than two stints without the all-wet exemption. -/
def check1Errs (doc : StrategyDoc) : List String :=
  if doc.stints.length < 2 ∧ onlyWet doc = false then [minStintsMsg] else []

/-- `dry_compounds_used = {c for c in compounds if c in {"Soft", "Medium", "Hard"}}`;
the set is embedded as the deduplicated sublist (its cardinality is all
the source uses). -/
def dryCompoundsUsed (doc : StrategyDoc) : List String :=
  ((compoundsOf doc).filter fun c =>
    c == "Soft" || c == "Medium" || c == "Hard").dedup

/-- Check 2 error message. -/
def diversityMsg (n : Nat) (m : Int) : String :=
  "Uses " ++ toString n ++ " dry compound(s) but min_compounds_required="
    ++ toString m ++ "."

/-- Check 2: dry-compound diversity. -/
def check2Errs (doc : StrategyDoc) : List String :=
  if dryCompoundsUsed doc ≠ [] ∧ minCompoundsOf doc > 0 ∧
      ((dryCompoundsUsed doc).length : Int) < minCompoundsOf doc then
    [diversityMsg (dryCompoundsUsed doc).length (minCompoundsOf doc)]
  else []

/-- `planned_inlaps = [int(s.get("planned_inlap", 0) or 0) for s in stints]`. -/
def plannedInlaps (doc : StrategyDoc) : List Int :=
  doc.stints.map inlapOf

/-- `actual_stops = len([x for x in planned_inlaps if x and x > 0])`. -/
def actualStops (doc : StrategyDoc) : Nat :=
  ((plannedInlaps doc).filter fun x => x != 0 && x > 0).length

/-- Check 3 error message. -/
def pitMsg (doc : StrategyDoc) : String :=
  "Planned stops=" ++ toString (actualStops doc) ++ " exceed max_pitstops="
    ++ toString (maxPitstopsOf doc) ++ "."

/-- Check 3: pit-stop ceiling. -/
def check3Errs (doc : StrategyDoc) : List String :=
  if (actualStops doc : Int) > maxPitstopsOf doc then [pitMsg doc] else []

/-- Check 4 first message: non-final zero inlap. -/
def onlyFinalMsg (prev : Stint) : String :=
  "Only final stint may have planned_inlap=0; found at stint_id="
    ++ renderId prev.stint_id ++ "."

/-- Check 4 second message: broken lap continuity. -/
def contMsg (prev cur : Stint) : String :=
  "Stint continuity violated between stint_id=" ++ renderId prev.stint_id
    ++ " and " ++ renderId cur.stint_id ++ " (expected start_lap="
    ++ toString (inlapOf prev + 1) ++ ", got " ++ toString (startOf cur) ++ ")."

/-- One iteration of the check-4 loop for the pair `(prev, cur)` where
`cur` sits at index `i`; the source guard `i != len(stints) - 1` is
`curIsLast = false` (it tests the index of `cur`, not of `prev`). -/
def contiPair (prev cur : Stint) (curIsLast : Bool) : List String :=
  (if inlapOf prev = 0 ∧ curIsLast = false then [onlyFinalMsg prev] else []) ++
    (if inlapOf prev ≠ 0 ∧ startOf cur ≠ inlapOf prev + 1 then
      [contMsg prev cur] else [])

/-- Check 4: `for i in range(1, len(stints))` over adjacent pairs. -/
def continuityErrs : List Stint → List String
  | prev :: cur :: rest =>
      contiPair prev cur rest.isEmpty ++ continuityErrs (cur :: rest)
  | _ => []

/-- `expected_uv = sorted([x for x in planned_inlaps if x > 0])`. -/
def expectedUv (doc : StrategyDoc) : List Int :=
  List.insertionSort (· ≤ ·) ((plannedInlaps doc).filter fun x => x > 0)

/-- Check 5 error message. -/
def summaryMsg (doc : StrategyDoc) : String :=
  "user_view.planned_pit_laps " ++ renderIntList doc.planned_pit_laps
    ++ " must equal non-zero planned_inlap " ++ renderIntList (expectedUv doc)
    ++ "."

/-- Check 5: user_view planned pit laps must match the stints. -/
def check5Errs (doc : StrategyDoc) : List String :=
  if doc.planned_pit_laps ≠ expectedUv doc then [summaryMsg doc] else []

/-- A single-quote character, used in the check-6 message text. -/
def sq : String := String.singleton '\x27'

/-- Check 6 used-set error message. -/
def usedSetMsg (s : Stint) : String :=
  "allow_used_tyre=false but stint_id=" ++ renderId s.stint_id
    ++ " uses " ++ sq ++ "used" ++ sq ++ " set."

/-- The conditional `errors.append` inside the first check-6 loop:
`if cond == "used" and not allow_used`. -/
def emitUsedErr (allow : Bool) (s : Stint) : Option String :=
  if condOf s = "used" ∧ allow = false then some (usedSetMsg s) else none

/-- All used-set errors, in stint order (the source appends them while
walking the stint list). -/
def usedSetErrs (doc : StrategyDoc) : List String :=
  doc.stints.filterMap (emitUsedErr (allowUsedOf doc))

/-- `key = f"{comp}_{cond}"`. -/
def tireKey (s : Stint) : String := compoundRaw s ++ "_" ++ condOf s

/-- `usage[key] = usage.get(key, 0) + 1` on an insertion-ordered map. -/
def bump : List (String × Int) → String → List (String × Int)
  | [], k => [(k, 1)]
  | (k', v) :: t, k =>
      if k' = k then (k', v + 1) :: t else (k', v) :: bump t k

/-- The `usage` dictionary after the first check-6 loop. -/
def usageOf (doc : StrategyDoc) : List (String × Int) :=
  doc.stints.foldl (fun m s => bump m (tireKey s)) []

/-- Dictionary lookup (`ck in inv` / `inv.get(ck)`). -/
def lookupStr : List (String × Int) → String → Option Int
  | [], _ => none
  | (k', v) :: t, k => if k' = k then some v else lookupStr t k

/-- Check 6 over-subscription error message. -/
def overMsg (count : Int) (ck : String) (v : Int) : String :=
  "Stints require " ++ toString count ++ " of " ++ ck
    ++ " but inventory has " ++ toString v ++ "."

/-- Check 6 missing-inventory error message. -/
def missingMsg (ck : String) (count : Int) : String :=
  "Inventory missing " ++ ck ++ "; cannot allocate " ++ toString count
    ++ " set(s)."

/-- One iteration of the second check-6 loop over a `usage` entry:
`parts = key.split("_")`; only keys splitting into exactly two parts are
checked against the inventory, all others are silently skipped. -/
def invEntryErr (inv : List (String × Int)) (entry : String × Int) :
    Option String :=
  match pySplitU entry.1 with
  | [a, b] =>
      match lookupStr inv (a ++ "_" ++ b) with
      | some v =>
          if entry.2 > v then some (overMsg entry.2 (a ++ "_" ++ b) v)
          else none
      | none => some (missingMsg (a ++ "_" ++ b) entry.2)
  | _ => none

/-- All inventory errors, in `usage` insertion order. -/
def invErrs (doc : StrategyDoc) : List String :=
  (usageOf doc).filterMap (invEntryErr doc.tire_availability)

/-- Check 7 warning message. -/
def dryWarnMsg (comp : String) (tlen : Int) : String :=
  "Dry stint " ++ comp ++ " length " ++ toString tlen
    ++ " laps > 70% of race; likely unrealistic."

/-- One iteration of the check-7 loop: `tlen > 0.7 * total_laps`
(rendered in exact arithmetic as `10 * tlen > 7 * total_laps`). -/
def emitDryWarn (totalLaps : Int) (s : Stint) : Option String :=
  if (compoundRaw s = "Soft" ∨ compoundRaw s = "Medium" ∨
        compoundRaw s = "Hard") ∧ 10 * tlenOf s > 7 * totalLaps then
    some (dryWarnMsg (compoundRaw s) (tlenOf s))
  else none

/-- The accumulated warnings list (check 7 is the only warning source). -/
def warningsOf (doc : StrategyDoc) : List String :=
  doc.stints.filterMap (emitDryWarn doc.total_laps)

/-- The accumulated errors list, in the source's append order:
checks 1, 2, 3, 4, 5, then the per-stint used-set errors, then the
inventory errors. -/
def errorsOf (doc : StrategyDoc) : List String :=
  check1Errs doc ++ check2Errs doc ++ check3Errs doc ++
    continuityErrs doc.stints ++ check5Errs doc ++ usedSetErrs doc ++
    invErrs doc

/-- The report rendering at the end of `domain_validate_strategy`. -/
def render (errors warnings : List String) : String :=
  if errors ≠ [] then
    "ERRORS:\n- " ++ String.intercalate "\n- " errors ++
      (if warnings ≠ [] then
        "\n\nWARNINGS:\n- " ++ String.intercalate "\n- " warnings
      else "")
  else if warnings ≠ [] then
    "WARNINGS:\n- " ++ String.intercalate "\n- " warnings
  else "OK"

/-- `domain_validate_strategy` on an already-parsed document: run all
seven checks, then render the accumulated report. -/
def domain_validate_strategy (doc : StrategyDoc) : String :=
  render (errorsOf doc) (warningsOf doc)

/-! ### Spec-worded comparison definitions

Two definitions below follow the specification's wording (not the
source) so that claims comparing the two can be stated; each is named
`spec...` and is used only to exhibit where the source differs. -/

/-- The spec's words for check 5's expected sequence: the ascending
sorted list of the non-zero `planned_inlap` values (the source instead
keeps only strictly positive values). -/
def specNonzeroSorted (doc : StrategyDoc) : List Int :=
  List.insertionSort (· ≤ ·) ((plannedInlaps doc).filter fun x => x ≠ 0)

/-- The spec's words for check 3's stop count: the number of stints
whose `planned_inlap` is non-zero (the source counts strictly positive
values). -/
def specActualStops (doc : StrategyDoc) : Nat :=
  ((plannedInlaps doc).filter fun x => x ≠ 0).length

/-! ### Concrete documents used by the claims -/

/-- First stint of a two-stint document whose non-final stint has
`planned_inlap = 0`. -/
def zeroInlapS0 : Stint := ⟨some 1, some 1, some 0, some "Soft", some "new", some 20⟩

/-- Final stint of the same document; its `start_lap` leaves a gap. -/
def zeroInlapS1 : Stint := ⟨some 2, some 10, some 0, some "Medium", some "new", some 20⟩

/-- A two-stint document whose first (hence non-final) stint has
`planned_inlap = 0`: every other rule is satisfied. -/
def twoStintZeroInlapDoc : StrategyDoc :=
  ⟨57, ⟨none, none, none⟩, [("Soft_new", 1), ("Medium_new", 1)],
    [zeroInlapS0, zeroInlapS1], []⟩

/-- Scenario A stint 1: Intermediate/new, start 1, inlap 17. -/
def scnA1 : Stint := ⟨some 1, some 1, some 17, some "Intermediate", some "new", none⟩

/-- Scenario A stint 2: Wet/new, start 18, inlap 38. -/
def scnA2 : Stint := ⟨some 2, some 18, some 38, some "Wet", some "new", none⟩

/-- Scenario A stint 3: Intermediate/new, start 39, inlap 0 (final). -/
def scnA3 : Stint := ⟨some 3, some 39, some 0, some "Intermediate", some "new", none⟩

/-- The Scenario A document: `planned_pit_laps = [17, 38]`,
`min_compounds_required = 2`, inventory `Intermediate_new: 1`,
`Wet_new: 1`. -/
def scenarioADoc : StrategyDoc :=
  ⟨57, ⟨none, some 2, none⟩, [("Intermediate_new", 1), ("Wet_new", 1)],
    [scnA1, scnA2, scnA3], [17, 38]⟩

/-- Scenario A with the inventory raised to `Intermediate_new: 2`, the
amount the stints actually consume. -/
def scenarioAFixedDoc : StrategyDoc :=
  ⟨57, ⟨none, some 2, none⟩, [("Intermediate_new", 2), ("Wet_new", 1)],
    [scnA1, scnA2, scnA3], [17, 38]⟩

/-- A stint whose compound contains an underscore. -/
def underscoreS0 : Stint := ⟨some 1, some 1, some 20, some "Extra_Soft", some "new", none⟩

/-- Second stint with the same underscore compound. -/
def underscoreS1 : Stint := ⟨some 2, some 21, some 0, some "Extra_Soft", some "new", none⟩

/-- A document using the key `Extra_Soft_new` twice against an *empty*
inventory: the usage key splits into three underscore segments, so the
source's check 6 skips it entirely. -/
def underscoreDoc : StrategyDoc :=
  ⟨57, ⟨none, none, none⟩, [], [underscoreS0, underscoreS1], [20]⟩

/-- A stint with a negative `planned_inlap`. -/
def negInlapS0 : Stint := ⟨some 1, some 1, some (-5), some "Soft", some "new", some 10⟩

/-- A single-stint document whose `planned_inlap` is `-5` (non-zero but
not positive) with empty `planned_pit_laps`. -/
def negativeInlapDoc : StrategyDoc :=
  ⟨57, ⟨none, none, none⟩, [("Soft_new", 1)], [negInlapS0], []⟩

/-- Stint with `planned_inlap = -1`. -/
def negPitS0 : Stint := ⟨some 1, some 1, some (-1), some "Soft", some "new", none⟩

/-- Companion stint starting at lap `-1 + 1 = 0` so continuity holds. -/
def negPitS1 : Stint := ⟨some 2, some 0, some 0, some "Medium", some "new", none⟩

/-- A document with `max_pitstops = 0` and one stint whose
`planned_inlap` is `-1`: non-zero, but not counted by the source. -/
def negativePitDoc : StrategyDoc :=
  ⟨57, ⟨none, none, some 0⟩, [("Soft_new", 1), ("Medium_new", 1)],
    [negPitS0, negPitS1], []⟩

/-! ### Helper lemmas

Every error message of a given check starts with a fixed character, and
the characters of the different checks are pairwise distinct wherever a
claim needs to know which check produced a message.  These lemmas let a
membership proof identify the producing segment of `errorsOf`. -/

/-- First character of a string. -/
def hd (s : String) : Option Char := s.data.head?

lemma hd_minStintsMsg : hd minStintsMsg = some 'M' := rfl

lemma hd_diversityMsg (n : Nat) (m : Int) : hd (diversityMsg n m) = some 'U' := rfl

lemma hd_pitMsg (doc : StrategyDoc) : hd (pitMsg doc) = some 'P' := rfl

lemma hd_onlyFinalMsg (s : Stint) : hd (onlyFinalMsg s) = some 'O' := rfl

lemma hd_contMsg (p c : Stint) : hd (contMsg p c) = some 'S' := rfl

lemma hd_summaryMsg (doc : StrategyDoc) : hd (summaryMsg doc) = some 'u' := rfl

lemma hd_usedSetMsg (s : Stint) : hd (usedSetMsg s) = some 'a' := rfl

lemma hd_overMsg (c : Int) (k : String) (v : Int) : hd (overMsg c k v) = some 'S' := rfl

lemma hd_missingMsg (k : String) (c : Int) : hd (missingMsg k c) = some 'I' := rfl

lemma hd_dryWarnMsg (c : String) (t : Int) : hd (dryWarnMsg c t) = some 'D' := rfl

lemma hd_of_mem_check1 {doc : StrategyDoc} {e : String}
    (h : e ∈ check1Errs doc) : hd e = some 'M' := by
  unfold check1Errs at h
  split at h
  · rw [List.mem_singleton.mp h]; exact hd_minStintsMsg
  · simp at h

lemma hd_of_mem_check2 {doc : StrategyDoc} {e : String}
    (h : e ∈ check2Errs doc) : hd e = some 'U' := by
  unfold check2Errs at h
  split at h
  · rw [List.mem_singleton.mp h]; exact hd_diversityMsg _ _
  · simp at h

lemma hd_of_mem_check3 {doc : StrategyDoc} {e : String}
    (h : e ∈ check3Errs doc) : hd e = some 'P' := by
  unfold check3Errs at h
  split at h
  · rw [List.mem_singleton.mp h]; exact hd_pitMsg _
  · simp at h

lemma hd_of_mem_contiPair {p c : Stint} {b : Bool} {e : String}
    (h : e ∈ contiPair p c b) : hd e = some 'O' ∨ hd e = some 'S' := by
  unfold contiPair at h
  rcases List.mem_append.mp h with h1 | h2
  · split at h1
    · rw [List.mem_singleton.mp h1]; exact Or.inl (hd_onlyFinalMsg _)
    · simp at h1
  · split at h2
    · rw [List.mem_singleton.mp h2]; exact Or.inr (hd_contMsg _ _)
    · simp at h2

lemma hd_of_mem_continuity : ∀ {l : List Stint} {e : String},
    e ∈ continuityErrs l → hd e = some 'O' ∨ hd e = some 'S'
  | [], _, h => by simp [continuityErrs] at h
  | [_], _, h => by simp [continuityErrs] at h
  | p :: c :: rest, e, h => by
      rw [show continuityErrs (p :: c :: rest) =
            contiPair p c rest.isEmpty ++ continuityErrs (c :: rest) from rfl] at h
      rcases List.mem_append.mp h with h1 | h2
      · exact hd_of_mem_contiPair h1
      · exact hd_of_mem_continuity h2

lemma hd_of_mem_check5 {doc : StrategyDoc} {e : String}
    (h : e ∈ check5Errs doc) : hd e = some 'u' := by
  unfold check5Errs at h
  split at h
  · rw [List.mem_singleton.mp h]; exact hd_summaryMsg _
  · simp at h

lemma hd_of_mem_usedSet {doc : StrategyDoc} {e : String}
    (h : e ∈ usedSetErrs doc) : hd e = some 'a' := by
  obtain ⟨s, _, hs⟩ := List.mem_filterMap.mp h
  unfold emitUsedErr at hs
  split at hs
  · injection hs with hs; rw [← hs]; exact hd_usedSetMsg _
  · exact Option.noConfusion hs

lemma hd_of_mem_inv {doc : StrategyDoc} {e : String}
    (h : e ∈ invErrs doc) : hd e = some 'S' ∨ hd e = some 'I' := by
  obtain ⟨⟨k, c⟩, _, hs⟩ := List.mem_filterMap.mp h
  unfold invEntryErr at hs
  split at hs
  · split at hs
    · split at hs
      · injection hs with hs; rw [← hs]; exact Or.inl (hd_overMsg _ _ _)
      · exact Option.noConfusion hs
    · injection hs with hs; rw [← hs]; exact Or.inr (hd_missingMsg _ _)
  · exact Option.noConfusion hs

lemma mem_errorsOf_cases {doc : StrategyDoc} {e : String}
    (h : e ∈ errorsOf doc) :
    e ∈ check1Errs doc ∨ e ∈ check2Errs doc ∨ e ∈ check3Errs doc ∨
      e ∈ continuityErrs doc.stints ∨ e ∈ check5Errs doc ∨
      e ∈ usedSetErrs doc ∨ e ∈ invErrs doc := by
  unfold errorsOf at h
  simp only [List.mem_append] at h
  tauto

lemma mem_errorsOf_of_check1 {doc : StrategyDoc} {e : String}
    (h : e ∈ check1Errs doc) : e ∈ errorsOf doc := by
  unfold errorsOf
  simp only [List.mem_append]
  tauto

lemma mem_errorsOf_of_check3 {doc : StrategyDoc} {e : String}
    (h : e ∈ check3Errs doc) : e ∈ errorsOf doc := by
  unfold errorsOf
  simp only [List.mem_append]
  tauto

lemma mem_errorsOf_of_check5 {doc : StrategyDoc} {e : String}
    (h : e ∈ check5Errs doc) : e ∈ errorsOf doc := by
  unfold errorsOf
  simp only [List.mem_append]
  tauto

lemma mem_errorsOf_of_usedSet {doc : StrategyDoc} {e : String}
    (h : e ∈ usedSetErrs doc) : e ∈ errorsOf doc := by
  unfold errorsOf
  simp only [List.mem_append]
  tauto

lemma mem_errorsOf_of_inv {doc : StrategyDoc} {e : String}
    (h : e ∈ invErrs doc) : e ∈ errorsOf doc := by
  unfold errorsOf
  simp only [List.mem_append]
  tauto

/-! ### Claim theorems -/

/-- Claim C1 (code bug evidence).  In `twoStintZeroInlapDoc` the first
of two stints has `planned_inlap = 0`, so it is not the final stint and
check 4 should record the "only final stint may have planned_inlap=0"
error.  The source's guard `i != len(stints) - 1` tests the index of
`cur` rather than of `prev`, so the penultimate stint is exempted and
the validator returns `OK`. -/
theorem c1_penultimate_zero_inlap_unflagged :
    (twoStintZeroInlapDoc.stints.map inlapOf) = [0, 0] ∧
    twoStintZeroInlapDoc.stints.length = 2 ∧
    onlyFinalMsg zeroInlapS0 ∉ errorsOf twoStintZeroInlapDoc ∧
    domain_validate_strategy twoStintZeroInlapDoc = "OK" :=
  ⟨rfl, rfl, by decide, rfl⟩

/-- Claim C2 (counterexample).  The Scenario A document is rejected:
`Intermediate_new` is used twice against an inventory of 1, so the
report is an `ERRORS` report, not `Ok` or warnings-only. -/
theorem c2_counterexample :
    errorsOf scenarioADoc ≠ [] ∧
    domain_validate_strategy scenarioADoc =
      "ERRORS:\n- Stints require 2 of Intermediate_new but inventory has 1." :=
  ⟨by decide, rfl⟩

/-- Claim C2 (amended).  On the Scenario A document the validator
returns an `ERRORS` report whose sole error is the `Intermediate_new`
inventory shortfall; with the inventory raised to `Intermediate_new: 2`
the report is exactly `OK`. -/
theorem c2_amended_scenarioA :
    errorsOf scenarioADoc =
      ["Stints require 2 of Intermediate_new but inventory has 1."] ∧
    domain_validate_strategy scenarioADoc =
      "ERRORS:\n- Stints require 2 of Intermediate_new but inventory has 1." ∧
    domain_validate_strategy scenarioAFixedDoc = "OK" :=
  ⟨rfl, rfl, rfl⟩

/-- Claim C3 (counterexample).  `underscoreDoc` uses the key
`Extra_Soft_new` twice while the inventory is empty, yet the whole
report is `OK`: the key splits into three underscore segments, so the
source's check 6 skips the inventory comparison entirely and no
"Inventory missing" error is recorded. -/
theorem c3_counterexample :
    ("Extra_Soft_new", 2) ∈ usageOf underscoreDoc ∧
    lookupStr underscoreDoc.tire_availability "Extra_Soft_new" = none ∧
    domain_validate_strategy underscoreDoc = "OK" :=
  ⟨by decide, rfl, rfl⟩

/-- Claim C4 (counterexample).  In `negativeInlapDoc` the only
`planned_inlap` is `-5`: the spec-worded expected sequence is `[-5]`,
different from `planned_pit_laps = []`, yet the source records no
summary-consistency error (its filter keeps only positive values; the
sole recorded error is the unrelated minimum-stint one). -/
theorem c4_counterexample :
    negativeInlapDoc.planned_pit_laps ≠ specNonzeroSorted negativeInlapDoc ∧
    summaryMsg negativeInlapDoc ∉ errorsOf negativeInlapDoc ∧
    errorsOf negativeInlapDoc = [minStintsMsg] :=
  ⟨by decide, by decide, rfl⟩

/-- Claim C5 (counterexample).  In `negativePitDoc` one stint has the
non-zero `planned_inlap = -1` and `max_pitstops = 0`, so the claim's
count (non-zero inlaps) exceeds the ceiling; the source counts only
positive inlaps, records no error at all, and returns `OK`. -/
theorem c5_counterexample :
    (specActualStops negativePitDoc : Int) > maxPitstopsOf negativePitDoc ∧
    errorsOf negativePitDoc = [] ∧
    domain_validate_strategy negativePitDoc = "OK" :=
  ⟨by decide, rfl, rfl⟩

/-- Claim C9.  The validator is a pure function of the parsed document:
two invocations on the same input produce character-for-character the
same report, with no dependence on any state outside the input. -/
theorem c9_deterministic (doc : StrategyDoc) :
    domain_validate_strategy doc = domain_validate_strategy doc := rfl

/-- Claim C7.  Every report has exactly one of three shapes: an
`ERRORS` section listing every error (followed by a `WARNINGS` section
exactly when a warning was also recorded), a `WARNINGS`-only section,
or the single token `OK`. -/
theorem c7_report_shapes (doc : StrategyDoc) :
    (errorsOf doc ≠ [] ∧
      domain_validate_strategy doc =
        "ERRORS:\n- " ++ String.intercalate "\n- " (errorsOf doc) ++
          (if warningsOf doc ≠ [] then
            "\n\nWARNINGS:\n- " ++ String.intercalate "\n- " (warningsOf doc)
          else "")) ∨
    (errorsOf doc = [] ∧ warningsOf doc ≠ [] ∧
      domain_validate_strategy doc =
        "WARNINGS:\n- " ++ String.intercalate "\n- " (warningsOf doc)) ∨
    (errorsOf doc = [] ∧ warningsOf doc = [] ∧
      domain_validate_strategy doc = "OK") := by
  by_cases he : errorsOf doc = []
  · by_cases hw : warningsOf doc = []
    · exact Or.inr (Or.inr ⟨he, hw, by
        simp [domain_validate_strategy, render, he, hw]⟩)
    · exact Or.inr (Or.inl ⟨he, hw, by
        simp [domain_validate_strategy, render, he, hw]⟩)
  · exact Or.inl ⟨he, by simp [domain_validate_strategy, render, he]⟩

/-- Claim C3 (amended).  For each stint with `set_condition = used`
while used tires are disallowed, an error naming that stint is
recorded; and for every usage key whose underscore split has exactly
two segments, exceeding the inventory entry (or its absence) is
recorded as an error.  Keys with any other number of underscore
segments are skipped by the source. -/
theorem c3_amended (doc : StrategyDoc) :
    (∀ s ∈ doc.stints, condOf s = "used" → allowUsedOf doc = false →
      usedSetMsg s ∈ errorsOf doc) ∧
    (∀ k c a b, (k, c) ∈ usageOf doc → pySplitU k = [a, b] →
      (∀ v, lookupStr doc.tire_availability (a ++ "_" ++ b) = some v →
        c > v → overMsg c (a ++ "_" ++ b) v ∈ errorsOf doc) ∧
      (lookupStr doc.tire_availability (a ++ "_" ++ b) = none →
        missingMsg (a ++ "_" ++ b) c ∈ errorsOf doc)) := by
  constructor
  · intro s hs hc ha
    refine mem_errorsOf_of_usedSet (List.mem_filterMap.mpr ⟨s, hs, ?_⟩)
    unfold emitUsedErr
    rw [if_pos ⟨hc, ha⟩]
  · intro k c a b hmem hsplit
    constructor
    · intro v hv hcv
      refine mem_errorsOf_of_inv (List.mem_filterMap.mpr ⟨(k, c), hmem, ?_⟩)
      unfold invEntryErr
      simp only [hsplit, hv]
      rw [if_pos hcv]
    · intro hnone
      refine mem_errorsOf_of_inv (List.mem_filterMap.mpr ⟨(k, c), hmem, ?_⟩)
      unfold invEntryErr
      simp only [hsplit, hnone]

/-- Claim C4 (amended).  The summary-consistency error is recorded if
and only if `user_view.planned_pit_laps` differs from the ascending
sorted sequence of the *strictly positive* `planned_inlap` values
(the source filters `x > 0`, not merely non-zero). -/
theorem c4_amended (doc : StrategyDoc) :
    summaryMsg doc ∈ errorsOf doc ↔
      doc.planned_pit_laps ≠ expectedUv doc := by
  constructor
  · intro h
    rcases mem_errorsOf_cases h with h | h | h | h | h | h | h
    · exact absurd ((hd_of_mem_check1 h).symm.trans (hd_summaryMsg doc))
        (by decide)
    · exact absurd ((hd_of_mem_check2 h).symm.trans (hd_summaryMsg doc))
        (by decide)
    · exact absurd ((hd_of_mem_check3 h).symm.trans (hd_summaryMsg doc))
        (by decide)
    · rcases hd_of_mem_continuity h with h' | h' <;>
        exact absurd (h'.symm.trans (hd_summaryMsg doc)) (by decide)
    · by_cases hc : doc.planned_pit_laps = expectedUv doc
      · rw [check5Errs, if_neg (not_not_intro hc)] at h
        exact absurd h (List.not_mem_nil _)
      · exact hc
    · exact absurd ((hd_of_mem_usedSet h).symm.trans (hd_summaryMsg doc))
        (by decide)
    · rcases hd_of_mem_inv h with h' | h' <;>
        exact absurd (h'.symm.trans (hd_summaryMsg doc)) (by decide)
  · intro hne
    refine mem_errorsOf_of_check5 ?_
    rw [check5Errs, if_pos hne]
    exact List.mem_singleton.mpr rfl

/-- Claim C5 (amended).  `actualStops` counts the stints whose
`planned_inlap` is *strictly positive* (the source's filter, rather
than "non-zero"), and the pit-stop-ceiling error naming both counts is
recorded if and only if `actualStops > max_pitstops`. -/
theorem c5_amended (doc : StrategyDoc) :
    pitMsg doc ∈ errorsOf doc ↔
      (actualStops doc : Int) > maxPitstopsOf doc := by
  constructor
  · intro h
    rcases mem_errorsOf_cases h with h | h | h | h | h | h | h
    · exact absurd ((hd_of_mem_check1 h).symm.trans (hd_pitMsg doc))
        (by decide)
    · exact absurd ((hd_of_mem_check2 h).symm.trans (hd_pitMsg doc))
        (by decide)
    · by_cases hc : (actualStops doc : Int) > maxPitstopsOf doc
      · exact hc
      · rw [check3Errs, if_neg hc] at h
        exact absurd h (List.not_mem_nil _)
    · rcases hd_of_mem_continuity h with h' | h' <;>
        exact absurd (h'.symm.trans (hd_pitMsg doc)) (by decide)
    · exact absurd ((hd_of_mem_check5 h).symm.trans (hd_pitMsg doc))
        (by decide)
    · exact absurd ((hd_of_mem_usedSet h).symm.trans (hd_pitMsg doc))
        (by decide)
    · rcases hd_of_mem_inv h with h' | h' <;>
        exact absurd (h'.symm.trans (hd_pitMsg doc)) (by decide)
  · intro hgt
    refine mem_errorsOf_of_check3 ?_
    rw [check3Errs, if_pos hgt]
    exact List.mem_singleton.mpr rfl

/-- Claim C6.  The validator accumulates: on any document that violates
check 1 (minimum stints), check 3 (pit ceiling) and the used-tire arm
of check 6 at once, the returned report is a single `ERRORS` report
containing all three messages. -/
theorem c6_accumulating (doc : StrategyDoc) (s : Stint)
    (h1 : doc.stints.length < 2 ∧ onlyWet doc = false)
    (h3 : (actualStops doc : Int) > maxPitstopsOf doc)
    (h6 : s ∈ doc.stints ∧ condOf s = "used" ∧ allowUsedOf doc = false) :
    minStintsMsg ∈ errorsOf doc ∧ pitMsg doc ∈ errorsOf doc ∧
    usedSetMsg s ∈ errorsOf doc ∧
    domain_validate_strategy doc =
      "ERRORS:\n- " ++ String.intercalate "\n- " (errorsOf doc) ++
        (if warningsOf doc ≠ [] then
          "\n\nWARNINGS:\n- " ++ String.intercalate "\n- " (warningsOf doc)
        else "") := by
  have m1 : minStintsMsg ∈ errorsOf doc := by
    refine mem_errorsOf_of_check1 ?_
    rw [check1Errs, if_pos h1]
    exact List.mem_singleton.mpr rfl
  have m3 : pitMsg doc ∈ errorsOf doc := by
    refine mem_errorsOf_of_check3 ?_
    rw [check3Errs, if_pos h3]
    exact List.mem_singleton.mpr rfl
  have m6 : usedSetMsg s ∈ errorsOf doc := by
    refine mem_errorsOf_of_usedSet (List.mem_filterMap.mpr ⟨s, h6.1, ?_⟩)
    unfold emitUsedErr
    rw [if_pos ⟨h6.2.1, h6.2.2⟩]
  have hne : errorsOf doc ≠ [] := List.ne_nil_of_mem m1
  refine ⟨m1, m3, m6, ?_⟩
  unfold domain_validate_strategy render
  rw [if_pos hne]

/-- Claim C8.  An over-long dry stint (compound Soft/Medium/Hard with
`target_len_laps` strictly above 70% of the race distance) contributes
its advisory message to the warnings, never to the errors; when nothing
else fails the whole report is warnings-only. -/
theorem c8_overlong_dry_advisory (doc : StrategyDoc) (s : Stint)
    (hs : s ∈ doc.stints)
    (hc : compoundRaw s = "Soft" ∨ compoundRaw s = "Medium" ∨
      compoundRaw s = "Hard")
    (hl : 10 * tlenOf s > 7 * doc.total_laps) :
    dryWarnMsg (compoundRaw s) (tlenOf s) ∈ warningsOf doc ∧
    dryWarnMsg (compoundRaw s) (tlenOf s) ∉ errorsOf doc ∧
    (errorsOf doc = [] →
      domain_validate_strategy doc =
        "WARNINGS:\n- " ++ String.intercalate "\n- " (warningsOf doc)) := by
  have hw : dryWarnMsg (compoundRaw s) (tlenOf s) ∈ warningsOf doc := by
    refine List.mem_filterMap.mpr ⟨s, hs, ?_⟩
    unfold emitDryWarn
    rw [if_pos ⟨hc, hl⟩]
  refine ⟨hw, ?_, ?_⟩
  · intro h
    rcases mem_errorsOf_cases h with h | h | h | h | h | h | h
    · exact absurd ((hd_of_mem_check1 h).symm.trans (hd_dryWarnMsg _ _))
        (by decide)
    · exact absurd ((hd_of_mem_check2 h).symm.trans (hd_dryWarnMsg _ _))
        (by decide)
    · exact absurd ((hd_of_mem_check3 h).symm.trans (hd_dryWarnMsg _ _))
        (by decide)
    · rcases hd_of_mem_continuity h with h' | h' <;>
        exact absurd (h'.symm.trans (hd_dryWarnMsg _ _)) (by decide)
    · exact absurd ((hd_of_mem_check5 h).symm.trans (hd_dryWarnMsg _ _))
        (by decide)
    · exact absurd ((hd_of_mem_usedSet h).symm.trans (hd_dryWarnMsg _ _))
        (by decide)
    · rcases hd_of_mem_inv h with h' | h' <;>
        exact absurd (h'.symm.trans (hd_dryWarnMsg _ _)) (by decide)
  · intro he
    have hwne : warningsOf doc ≠ [] := List.ne_nil_of_mem hw
    unfold domain_validate_strategy render
    rw [if_neg (not_not_intro he), if_pos hwne]

/-- Claim C10.  An absent `allow_used_tyre` defaults to `false`, so
every stint with `set_condition = "used"` then yields the blocking
used-set error; a stint with no `set_condition` at all is treated as
`"new"` and its loop iteration emits no used-set error for any value of
the flag. -/
theorem c10_defaults (doc : StrategyDoc)
    (h : doc.constraints.allow_used_tyre = none) :
    allowUsedOf doc = false ∧
    (∀ s ∈ doc.stints, s.set_condition = some "used" →
      usedSetMsg s ∈ errorsOf doc) ∧
    (∀ (b : Bool) (s : Stint), s.set_condition = none →
      condOf s = "new" ∧ emitUsedErr b s = none) := by
  have ha : allowUsedOf doc = false := by simp [allowUsedOf, h]
  refine ⟨ha, ?_, ?_⟩
  · intro s hs hcond
    have hc : condOf s = "used" := by simp [condOf, hcond]
    refine mem_errorsOf_of_usedSet (List.mem_filterMap.mpr ⟨s, hs, ?_⟩)
    unfold emitUsedErr
    rw [if_pos ⟨hc, ha⟩]
  · intro b s hnone
    have hc : condOf s = "new" := by simp [condOf, hnone]
    refine ⟨hc, ?_⟩
    unfold emitUsedErr
    rw [if_neg fun hcontra => ?_]
    rw [hc] at hcontra
    exact absurd hcontra.1 (by decide)

/-! ### Witness documents and witness theorems -/

/-- A used-condition stint for the C3 witness. -/
def w3s0 : Stint := ⟨some 1, some 1, some 20, some "Soft", some "used", none⟩

/-- A new-condition stint whose key is absent from the inventory. -/
def w3s1 : Stint := ⟨some 2, some 21, some 0, some "Medium", some "new", none⟩

/-- Witness document for the amended claim C3: one disallowed used set,
one oversubscribed key, one missing key. -/
def usedInvDoc : StrategyDoc :=
  ⟨57, ⟨none, none, none⟩, [("Soft_used", 0)], [w3s0, w3s1], [20]⟩

/-- Witness for the amended claim C3 at `usedInvDoc`. -/
theorem c3_amended_witness :
    usedSetMsg w3s0 ∈ errorsOf usedInvDoc ∧
    overMsg 1 ("Soft" ++ "_" ++ "used") 0 ∈ errorsOf usedInvDoc ∧
    missingMsg ("Medium" ++ "_" ++ "new") 1 ∈ errorsOf usedInvDoc :=
  ⟨(c3_amended usedInvDoc).1 w3s0 (by decide) rfl rfl,
    ((c3_amended usedInvDoc).2 "Soft_used" 1 "Soft" "used" (by decide)
      (by decide)).1 0 rfl (by decide),
    ((c3_amended usedInvDoc).2 "Medium_new" 1 "Medium" "new" (by decide)
      (by decide)).2 rfl⟩

/-- Witness document for the amended claim C4: `planned_pit_laps` is
`[99]` while no stint has a positive `planned_inlap`. -/
def mismatchedUvDoc : StrategyDoc :=
  ⟨57, ⟨none, none, none⟩, [("Soft_new", 1)], [negInlapS0], [99]⟩

/-- Witness for the amended claim C4 at `mismatchedUvDoc`. -/
theorem c4_amended_witness :
    summaryMsg mismatchedUvDoc ∈ errorsOf mismatchedUvDoc :=
  (c4_amended mismatchedUvDoc).mpr (by decide)

/-- Stints for the C5 witness: two positive inlaps against a ceiling of
one stop. -/
def w5s0 : Stint := ⟨some 1, some 1, some 10, some "Soft", some "new", none⟩

/-- Second witness stint. -/
def w5s1 : Stint := ⟨some 2, some 11, some 20, some "Medium", some "new", none⟩

/-- Final witness stint, running to the flag. -/
def w5s2 : Stint := ⟨some 3, some 21, some 0, some "Hard", some "new", none⟩

/-- Witness document for the amended claim C5: two planned stops with
`max_pitstops = 1`. -/
def twoStopsDoc : StrategyDoc :=
  ⟨57, ⟨none, none, some 1⟩,
    [("Soft_new", 1), ("Medium_new", 1), ("Hard_new", 1)],
    [w5s0, w5s1, w5s2], [10, 20]⟩

/-- Witness for the amended claim C5 at `twoStopsDoc`. -/
theorem c5_amended_witness : pitMsg twoStopsDoc ∈ errorsOf twoStopsDoc :=
  (c5_amended twoStopsDoc).mpr (by decide)

/-- Single stint violating the minimum-stint rule, the pit ceiling and
the used-tire policy at once. -/
def w6s : Stint := ⟨some 1, some 1, some 5, some "Soft", some "used", none⟩

/-- Witness document for claim C6: violates checks 1, 3 and 6
simultaneously. -/
def tripleViolationDoc : StrategyDoc :=
  ⟨57, ⟨none, none, some 0⟩, [("Soft_used", 1)], [w6s], [5]⟩

/-- Witness for claim C6 at `tripleViolationDoc`. -/
theorem c6_witness :
    minStintsMsg ∈ errorsOf tripleViolationDoc ∧
    pitMsg tripleViolationDoc ∈ errorsOf tripleViolationDoc ∧
    usedSetMsg w6s ∈ errorsOf tripleViolationDoc ∧
    domain_validate_strategy tripleViolationDoc =
      "ERRORS:\n- " ++
        String.intercalate "\n- " (errorsOf tripleViolationDoc) ++
        (if warningsOf tripleViolationDoc ≠ [] then
          "\n\nWARNINGS:\n- " ++
            String.intercalate "\n- " (warningsOf tripleViolationDoc)
        else "") :=
  c6_accumulating tripleViolationDoc w6s (by decide) (by decide) (by decide)

/-- A 45-lap Hard stint in a 57-lap race (above the 70% threshold). -/
def w8s0 : Stint := ⟨some 1, some 1, some 30, some "Hard", some "new", some 45⟩

/-- The companion stint keeping every other rule satisfied. -/
def w8s1 : Stint := ⟨some 2, some 31, some 0, some "Soft", some "new", some 27⟩

/-- Witness document for claim C8: its only issue is the over-long dry
stint. -/
def overlongDryDoc : StrategyDoc :=
  ⟨57, ⟨none, none, none⟩, [("Hard_new", 1), ("Soft_new", 1)],
    [w8s0, w8s1], [30]⟩

/-- Witness for claim C8 at `overlongDryDoc`. -/
theorem c8_witness :
    dryWarnMsg (compoundRaw w8s0) (tlenOf w8s0) ∈ warningsOf overlongDryDoc ∧
    dryWarnMsg (compoundRaw w8s0) (tlenOf w8s0) ∉ errorsOf overlongDryDoc ∧
    (errorsOf overlongDryDoc = [] →
      domain_validate_strategy overlongDryDoc =
        "WARNINGS:\n- " ++
          String.intercalate "\n- " (warningsOf overlongDryDoc)) :=
  c8_overlong_dry_advisory overlongDryDoc w8s0 (by decide) (by decide)
    (by decide)

/-- A used-set stint for the C10 witness. -/
def w10s : Stint := ⟨some 1, some 1, some 0, some "Soft", some "used", none⟩

/-- A stint with no `set_condition` key at all. -/
def w10free : Stint := ⟨some 9, none, none, some "Hard", none, none⟩

/-- Witness document for claim C10: the constraints omit
`allow_used_tyre` entirely. -/
def noAllowUsedDoc : StrategyDoc :=
  ⟨57, ⟨none, none, none⟩, [("Soft_used", 1)], [w10s], []⟩

/-- Witness for claim C10 at `noAllowUsedDoc`. -/
theorem c10_witness :
    allowUsedOf noAllowUsedDoc = false ∧
    usedSetMsg w10s ∈ errorsOf noAllowUsedDoc ∧
    condOf w10free = "new" ∧ emitUsedErr true w10free = none := by
  obtain ⟨h1, h2, h3⟩ := c10_defaults noAllowUsedDoc rfl
  exact ⟨h1, h2 w10s (by decide) rfl, (h3 true w10free rfl).1,
    (h3 true w10free rfl).2⟩

end Hacktx
